import Mathlib

/- Formal model of `backend/app/main.py` of the website-cloner service.

   The Python code is shallowly embedded: JSON documents become the inductive
   type `Json`, Python exceptions become the inductive `PyExc`, every remote
   HTTP interaction is passed in as an explicit oracle value (the observed
   response), and each Python function of the source becomes a total Lean
   function over those oracles.  Generators are modelled by the finite list of
   values they yield together with the exception, if any, that terminates them
   (`List Json × Option PyExc`).  Python `str` operations used by the code
   (`startswith`, slicing, `strip`) are modelled on the character list of the
   Lean string, and `json.loads` is modelled by an executable fuel-based JSON
   parser, so that every definition evaluates by `rfl` on concrete inputs. -/

/-! ## JSON values and Python exceptions -/

/-- A decoded JSON document, the value space of `json.loads` and of the
    payloads exchanged with the scraping service and the model endpoint. -/
inductive Json where
  | null
  | bool (b : Bool)
  | num (n : Int)
  | str (s : String)
  | arr (elems : List Json)
  | obj (members : List (String × Json))
deriving Repr

/-- The Python exceptions that the service's code paths can raise or catch.
    `httpException` is FastAPI's `HTTPException(status_code, detail)`;
    `requestError` stands for any `requests` transport-level fault. -/
inductive PyExc where
  | httpException (status : Nat) (detail : String)
  | keyError (msg : String)
  | indexError (msg : String)
  | typeError (msg : String)
  | attributeError (msg : String)
  | jsonDecodeError (msg : String)
  | requestError (msg : String)
deriving Repr, DecidableEq

/-- Python's `str(e)` for the exceptions of `PyExc`; `str` of a FastAPI
    `HTTPException` renders as `"<status>: <detail>"`. -/
def pyStr : PyExc → String
  | .httpException s d => toString s ++ ": " ++ d
  | .keyError m => m
  | .indexError m => m
  | .typeError m => m
  | .attributeError m => m
  | .jsonDecodeError m => m
  | .requestError m => m

/-! ## Python string primitives

    `line.startswith(p)`, `line[n:]` and `s.strip()` act on code points, so
    they are modelled on `String.data`, the character list of a string. -/

/-- Whitespace as stripped by `str.strip()` on the ASCII inputs at hand. -/
def pyWs (c : Char) : Bool := c = ' ' || c = '\t' || c = '\n' || c = '\r'

/-- Model of Python `s.startswith(pre)`. -/
def pyStartsWith (s pre : String) : Bool := pre.data.isPrefixOf s.data

/-- Model of the Python slice `s[n:]`. -/
def pySliceFrom (s : String) (n : Nat) : String := String.mk (s.data.drop n)

/-- Model of Python `s.strip()`. -/
def pyStrip (s : String) : String :=
  String.mk (((s.data.dropWhile pyWs).reverse.dropWhile pyWs).reverse)

/-! ## Model of `json.loads`

    An executable recursive-descent JSON parser over the character list,
    total thanks to a fuel argument that the caller sizes from the input. -/

/-- The character `{`. -/
def lbraceC : Char := Char.ofNat 123

/-- The character `}`. -/
def rbraceC : Char := Char.ofNat 125

/-- Skips JSON inter-token whitespace. -/
def dropWs : List Char → List Char
  | c :: cs => if pyWs c then dropWs cs else c :: cs
  | [] => []

/-- Tests for an ASCII decimal digit. -/
def isDig (c : Char) : Bool := 48 ≤ c.toNat && c.toNat ≤ 57

/-- Value of one hexadecimal digit, if `c` is one. -/
def hexDigit (c : Char) : Option Nat :=
  if 48 ≤ c.toNat ∧ c.toNat ≤ 57 then some (c.toNat - 48)
  else if 97 ≤ c.toNat ∧ c.toNat ≤ 102 then some (c.toNat - 87)
  else if 65 ≤ c.toNat ∧ c.toNat ≤ 70 then some (c.toNat - 55)
  else none

/-- Scans the body of a JSON string after the opening quote, decoding the
    escape sequences of RFC 8259, and returns the string with the rest of
    the input after the closing quote. -/
def scanString : Nat → List Char → List Char → Option (String × List Char)
  | 0, _, _ => none
  | fuel+1, acc, c :: cs =>
    if c = '"' then some (String.mk acc.reverse, cs)
    else if c = '\\' then
      match cs with
      | e :: cs' =>
        if e = '"' then scanString fuel ('"' :: acc) cs'
        else if e = '\\' then scanString fuel ('\\' :: acc) cs'
        else if e = '/' then scanString fuel ('/' :: acc) cs'
        else if e = 'n' then scanString fuel ('\n' :: acc) cs'
        else if e = 't' then scanString fuel ('\t' :: acc) cs'
        else if e = 'r' then scanString fuel ('\r' :: acc) cs'
        else if e = 'b' then scanString fuel (Char.ofNat 8 :: acc) cs'
        else if e = 'f' then scanString fuel (Char.ofNat 12 :: acc) cs'
        else if e = 'u' then
          match cs' with
          | h1 :: h2 :: h3 :: h4 :: cs'' =>
            match hexDigit h1, hexDigit h2, hexDigit h3, hexDigit h4 with
            | some a, some b, some c', some d =>
              scanString fuel (Char.ofNat (((a * 16 + b) * 16 + c') * 16 + d) :: acc) cs''
            | _, _, _, _ => none
          | _ => none
        else none
      | [] => none
    else scanString fuel (c :: acc) cs
  | _+1, _, [] => none

/-- Splits a leading run of decimal digits off the input. -/
def scanDigits : List Char → List Char × List Char
  | c :: cs => if isDig c then let r := scanDigits cs; (c :: r.1, r.2) else ([], c :: cs)
  | [] => ([], [])

/-- Numeric value of a digit run. -/
def digitsToNat (ds : List Char) : Nat := ds.foldl (fun a c => a * 10 + (c.toNat - 48)) 0

/-- Consumes an expected literal character sequence. -/
def stripLit : List Char → List Char → Option (List Char)
  | [], cs => some cs
  | p :: ps, c :: cs => if c = p then stripLit ps cs else none
  | _ :: _, [] => none

/-- Inserts a key into an association list the way assignment updates a
    Python `dict`: an existing key keeps its position and takes the new
    value, a new key goes to the end. -/
def insertKey : List (String × Json) → String → Json → List (String × Json)
  | [], k, v => [(k, v)]
  | (k', v') :: rest, k, v => if k' = k then (k, v) :: rest else (k', v') :: insertKey rest k v

/-- Folds parsed object members into a Python-`dict`-like association list
    (later duplicates override earlier ones, as in `json.loads`). -/
def dictOfPairs (ps : List (String × Json)) : List (String × Json) :=
  ps.foldl (fun m kv => insertKey m kv.1 kv.2) []

mutual

/-- Parses one JSON value, returning it with the unconsumed input. -/
def parseVal : Nat → List Char → Option (Json × List Char)
  | 0, _ => none
  | fuel+1, cs =>
    match dropWs cs with
    | [] => none
    | c :: cs' =>
      if c = '"' then (scanString (cs'.length + 1) [] cs').map (fun sr => (Json.str sr.1, sr.2))
      else if c = lbraceC then
        match dropWs cs' with
        | d :: cs'' =>
          if d = rbraceC then some (Json.obj [], cs'')
          else (parseMembers fuel (dropWs cs')).map (fun mr => (Json.obj (dictOfPairs mr.1), mr.2))
        | [] => none
      else if c = '[' then
        match dropWs cs' with
        | d :: cs'' =>
          if d = ']' then some (Json.arr [], cs'')
          else (parseElems fuel (dropWs cs')).map (fun er => (Json.arr er.1, er.2))
        | [] => none
      else if c = 't' then (stripLit ['r','u','e'] cs').map (fun r => (Json.bool true, r))
      else if c = 'f' then (stripLit ['a','l','s','e'] cs').map (fun r => (Json.bool false, r))
      else if c = 'n' then (stripLit ['u','l','l'] cs').map (fun r => (Json.null, r))
      else if c = '-' then
        match scanDigits cs' with
        | ([], _) => none
        | (ds, rest) =>
          match rest with
          | r :: _ => if r = '.' ∨ r = 'e' ∨ r = 'E' then none
                      else some (Json.num (-(digitsToNat ds : Int)), rest)
          | [] => some (Json.num (-(digitsToNat ds : Int)), rest)
      else if isDig c then
        match scanDigits (c :: cs') with
        | (ds, rest) =>
          match rest with
          | r :: _ => if r = '.' ∨ r = 'e' ∨ r = 'E' then none
                      else some (Json.num (digitsToNat ds : Int), rest)
          | [] => some (Json.num (digitsToNat ds : Int), rest)
      else none

/-- Parses the comma-separated elements of a non-empty JSON array up to the
    closing bracket. -/
def parseElems : Nat → List Char → Option (List Json × List Char)
  | 0, _ => none
  | fuel+1, cs => do
    let vr ← parseVal fuel cs
    match dropWs vr.2 with
    | d :: r' =>
      if d = ',' then do
        let er ← parseElems fuel r'
        some (vr.1 :: er.1, er.2)
      else if d = ']' then some ([vr.1], r')
      else none
    | [] => none

/-- Parses the members of a non-empty JSON object up to the closing brace;
    the input must start at the first key's opening quote. -/
def parseMembers : Nat → List Char → Option (List (String × Json) × List Char)
  | 0, _ => none
  | fuel+1, cs =>
    match cs with
    | c :: cs' =>
      if c = '"' then do
        let kr ← scanString (cs'.length + 1) [] cs'
        match dropWs kr.2 with
        | d :: r' =>
          if d = ':' then do
            let vr ← parseVal fuel r'
            match dropWs vr.2 with
            | e :: r'' =>
              if e = ',' then do
                let mr ← parseMembers fuel (dropWs r'')
                some ((kr.1, vr.1) :: mr.1, mr.2)
              else if e = rbraceC then some ([(kr.1, vr.1)], r'')
              else none
            | [] => none
          else none
        | [] => none
      else none
    | [] => none

end

/-- Model of Python `json.loads`: parses the whole string to one `Json`
    value or fails with a `json.JSONDecodeError`. -/
def loads (s : String) : Except PyExc Json :=
  match parseVal (2 * s.data.length + 2) s.data with
  | some (v, rest) =>
    if (dropWs rest).isEmpty then .ok v else .error (.jsonDecodeError "Extra data")
  | none => .error (.jsonDecodeError "Expecting value")

/-! ## Python data-access primitives on `Json` values -/

/-- Python `v[k]` for a string key `k`: a `dict` lookup that raises
    `KeyError` on a missing key and `TypeError` on a non-`dict`. -/
def pyGetItemStr (v : Json) (k : String) : Except PyExc Json :=
  match v with
  | Json.obj fields =>
    match fields.lookup k with
    | some w => .ok w
    | none => .error (.keyError k)
  | Json.arr _ => .error (.typeError "list indices must be integers or slices, not str")
  | Json.str _ => .error (.typeError "string indices must be integers")
  | _ => .error (.typeError "object is not subscriptable")

/-- Python `v[i]` for a natural index: list indexing that raises
    `IndexError` out of range; a JSON-decoded `dict` has only string keys,
    so `d[0]` raises `KeyError`; other values raise `TypeError`. -/
def pyGetItemNat (v : Json) (i : Nat) : Except PyExc Json :=
  match v with
  | Json.arr xs =>
    match xs.get? i with
    | some x => .ok x
    | none => .error (.indexError "list index out of range")
  | Json.obj _ => .error (.keyError (toString i))
  | Json.str s =>
    match s.data.get? i with
    | some c => .ok (Json.str (String.mk [c]))
    | none => .error (.indexError "string index out of range")
  | _ => .error (.typeError "object is not subscriptable")

/-- Python `v.get(k)` on a `dict` (`none` both for a missing key and for a
    stored JSON `null`, which decodes to Python `None` anyway); raises
    `AttributeError` when `v` is not a `dict`. -/
def pyDictGet (v : Json) (k : String) : Except PyExc (Option Json) :=
  match v with
  | Json.obj fields => .ok (fields.lookup k)
  | _ => .error (.attributeError "object has no attribute get")

/-- Python `v.get(k, d)` on a `dict` with a default. -/
def pyDictGetD (v : Json) (k : String) (d : Json) : Except PyExc Json :=
  match v with
  | Json.obj fields => .ok ((fields.lookup k).getD d)
  | _ => .error (.attributeError "object has no attribute get")

/-- Python `len(v)`. -/
def pyLen : Json → Except PyExc Nat
  | Json.arr xs => .ok xs.length
  | Json.str s => .ok s.data.length
  | Json.obj fields => .ok fields.length
  | _ => .error (.typeError "object has no len")

/-- Python truthiness of a JSON-decoded value. -/
def pyTruthy : Json → Bool
  | Json.null => false
  | Json.bool b => b
  | Json.num n => n ≠ 0
  | Json.str s => s ≠ ""
  | Json.arr xs => !xs.isEmpty
  | Json.obj fields => !fields.isEmpty

/-- Python `v == s` against a string literal: only a string with the same
    characters compares equal. -/
def pyEqStr (v : Json) (s : String) : Bool :=
  match v with
  | Json.str t => t = s
  | _ => false

/-- Tests whether `needle` occurs as a contiguous infix of `hay`. -/
def infixCheck (needle hay : List Char) : Bool :=
  needle.isPrefixOf hay ||
    match hay with
    | [] => false
    | _ :: t => infixCheck needle t

/-- Python `k in v` for a string `k`: key test on a `dict`, elementwise
    equality on a list, substring test on a string, `TypeError` otherwise. -/
def pyContains (v : Json) (k : String) : Except PyExc Bool :=
  match v with
  | Json.obj fields => .ok (fields.lookup k).isSome
  | Json.arr xs => .ok (xs.any (fun e => pyEqStr e k))
  | Json.str s => .ok (infixCheck k.data s.data)
  | _ => .error (.typeError "argument is not iterable")

/-- Strings of a list of `Json` values, when all of them are strings. -/
def allStrs : List Json → Option (List String)
  | [] => some []
  | Json.str s :: rest => (allStrs rest).map (fun l => s :: l)
  | _ => none

/-- Joins strings with a separator the way Python `sep.join` renders its
    items. -/
def joinSep (sep : String) : List String → String
  | [] => ""
  | [s] => s
  | s :: rest => s ++ sep ++ joinSep sep rest

/-- Python `sep.join(items)`: raises `TypeError` when an item is not a
    string. -/
def pyJoin (sep : String) (items : List Json) : Except PyExc String :=
  match allStrs items with
  | some ss => .ok (joinSep sep ss)
  | none => .error (.typeError "sequence item: expected str instance")

/-! ## Base64 (Python `base64.b64encode(content).decode()`) -/

/-- Character of one 6-bit group in the standard base64 alphabet. -/
def b64chr (n : Nat) : Char :=
  "ABCDEFGHIJKLMNOPQRSTUVWXYZabcdefghijklmnopqrstuvwxyz0123456789+/".data.getD n 'A'

/-- Standard base64 of a byte sequence, with `=` padding, as produced by
    `base64.b64encode(content).decode()`. -/
def b64encode : List UInt8 → String
  | [] => ""
  | [a] =>
    let x := a.toNat
    String.mk [b64chr (x / 4), b64chr (x % 4 * 16), '=', '=']
  | [a, b] =>
    let x := a.toNat; let y := b.toNat
    String.mk [b64chr (x / 4), b64chr (x % 4 * 16 + y / 16), b64chr (y % 16 * 4), '=']
  | a :: b :: c :: rest =>
    let x := a.toNat; let y := b.toNat; let z := c.toNat
    String.mk [b64chr (x / 4), b64chr (x % 4 * 16 + y / 16),
               b64chr (y % 16 * 4 + z / 64), b64chr (z % 64)] ++ b64encode rest

/-! ## Remote extraction client (`main.py` lines 32-226)

    Every remote HTTP interaction is an oracle argument: an
    `Except PyExc Json` stands for the combined outcome of
    `requests.post(...)`, `resp.raise_for_status()` and `resp.json()`
    (`.error e` when any of them raised `e`, `.ok payload` otherwise). -/

/-- Return value of the browser-side script injected by
    `extract_design_context` (`main.py` lines 97-108): an object with
    exactly the keys `title`, `elementMap`, `viewport` and `meta`. -/
def extract_script_result (title : String) (elementMap : List Json)
    (vw vh : Int) (desc keyw : String) : Json :=
  Json.obj [("title", Json.str title),
            ("elementMap", Json.arr elementMap),
            ("viewport", Json.obj [("width", Json.num vw), ("height", Json.num vh)]),
            ("meta", Json.obj [("description", Json.str desc), ("keywords", Json.str keyw)])]

/-- Model of `extract_design_context` (`main.py` lines 32-126): the whole
    body runs under `try/except Exception`, so a raised fault becomes an
    error-shaped `dict` and a successful call returns `resp.json()`
    unchanged. -/
def extract_design_context (call : Except PyExc Json) : Json :=
  match call with
  | .ok payload => payload
  | .error e => Json.obj [("error", Json.str ("Failed to extract design context: " ++ pyStr e))]

/-- The CSS-collecting loop of `extract_dom_structure` (`main.py` lines
    151-154): walks the items of `content['data']` and appends
    `item.get('text', '')` for the items whose `selector` equals
    `'style'`. -/
def css_loop : List Json → List Json → Except PyExc (List Json)
  | [], acc => .ok acc
  | item :: rest, acc => do
    let sel ← pyDictGet item "selector"
    match sel with
    | some v =>
      if pyEqStr v "style" then do
        let t ← pyDictGetD item "text" (Json.str "")
        css_loop rest (acc ++ [t])
      else css_loop rest acc
    | none => css_loop rest acc

/-- Python `for item in v` as a list of iterated values: a list yields its
    elements, a `dict` its keys, a string its characters; other values
    raise `TypeError`. -/
def pyIterList (v : Json) : Except PyExc (List Json) :=
  match v with
  | Json.arr xs => .ok xs
  | Json.obj fields => .ok (fields.map (fun kv => Json.str kv.1))
  | Json.str s => .ok (s.data.map (fun c => Json.str (String.mk [c])))
  | _ => .error (.typeError "object is not iterable")

/-- The `try`-block body of `extract_dom_structure` after `resp.json()`
    (`main.py` lines 147-159). -/
def dom_try_body (content : Json) : Except PyExc Json := do
  let hasData ← pyContains content "data"
  let css_content ←
    if hasData then do
      let data ← pyGetItemStr content "data"
      let items ← pyIterList data
      css_loop items []
    else .ok []
  let joined ← pyJoin "\n" css_content
  .ok (Json.obj [("html", content), ("extracted_css", Json.str joined)])

/-- Model of `extract_dom_structure` (`main.py` lines 129-161): the whole
    body runs under `try/except Exception`, so any raised fault — from the
    remote call or from the CSS-collection loop — becomes an error-shaped
    `dict`. -/
def extract_dom_structure (call : Except PyExc Json) : Json :=
  match (do dom_try_body (← call)) with
  | .ok r => r
  | .error e => Json.obj [("error", Json.str ("Failed to extract DOM: " ++ pyStr e))]

/-- The three fixed viewports of `capture_responsive_views` (`main.py`
    lines 199-203), in iteration order. -/
def viewports : List (String × Nat × Nat) :=
  [("mobile", 375, 667), ("tablet", 768, 1024), ("desktop", 1440, 900)]

/-- Model of `capture_responsive_views` (`main.py` lines 196-226): one
    screenshot request per viewport, every per-viewport exception caught
    and recorded as the string `"Error: " ++ str(e)` under that device's
    key.  `fetch w h` is the oracle for the screenshot request at viewport
    `w×h` (`.ok` carries `resp.content`). -/
def capture_responsive_views (fetch : Nat → Nat → Except PyExc (List UInt8)) :
    List (String × String) :=
  viewports.map (fun dv =>
    (dv.1,
     match fetch dv.2.1 dv.2.2 with
     | .ok content => b64encode content
     | .error e => "Error: " ++ pyStr e))

/-! ## Streaming completion client (`main.py` lines 229-327) -/

/-- Outcome of one `data:` line of the event stream inside the
    `try/except` of `main.py` lines 319-325. -/
inductive LineOut where
  | emit (v : Json)
  | skip
  | raise (e : PyExc)
deriving Repr

/-- The expression chain `json.loads(data)`, `obj["choices"][0]["delta"]`,
    `delta.get("content")` of `main.py` lines 320-322, with every Python
    fault made explicit. -/
def sse_extract_content (data : String) : Except PyExc (Option Json) := do
  let obj ← loads data
  let choices ← pyGetItemStr obj "choices"
  let first ← pyGetItemNat choices 0
  let delta ← pyGetItemStr first "delta"
  pyDictGet delta "content"

/-- Exceptions caught by `except (KeyError, json.JSONDecodeError)`
    (`main.py` line 324). -/
def sseCaught : PyExc → Bool
  | .keyError _ => true
  | .jsonDecodeError _ => true
  | _ => false

/-- Processing of one non-sentinel `data:` payload (`main.py` lines
    319-325): yield the content when present and not `None`, skip the line
    on a caught exception or a missing content, re-raise anything else. -/
def parse_data_line (data : String) : LineOut :=
  match sse_extract_content data with
  | .ok (some Json.null) => .skip
  | .ok (some v) => .emit v
  | .ok none => .skip
  | .error e => if sseCaught e then .skip else .raise e

/-- The `for raw in resp.iter_lines()` loop of `main.py` lines 311-327,
    including the trailing `yield "\n</html>"` that runs when the loop
    ends (by exhaustion or by the `[DONE]` break) without raising.  The
    result is the yielded values in order, paired with the exception that
    aborted the generator, if any. -/
def sse_loop : List String → List Json × Option PyExc
  | [] => ([Json.str "\n</html>"], none)
  | raw :: rest =>
    if raw = "" then sse_loop rest
    else if pyStartsWith raw "data: " then
      let data := pyStrip (pySliceFrom raw 6)
      if data = "[DONE]" then ([Json.str "\n</html>"], none)
      else
        match parse_data_line data with
        | .emit v => let r := sse_loop rest; (v :: r.1, r.2)
        | .skip => sse_loop rest
        | .raise e => ([], some e)
    else sse_loop rest

/-- One event-stream HTTP response from the model endpoint: the status
    code, the body text (`resp.text`, read on failure) and the decoded
    lines of `resp.iter_lines()`. -/
structure HttpResponse where
  status_code : Nat
  text : String
  lines : List String

/-- The desktop-screenshot selection of `main.py` lines 239-247: take
    `screenshots.get("desktop", "")` and call the fallback
    `grab_screenshot` only when that value is falsy (absent or empty).
    Returns whether the fallback was invoked, paired with the base64
    payload obtained (`.error` when the fallback raised). -/
def select_png (screenshots : List (String × String)) (fallback : Except PyExc String) :
    Bool × Except PyExc String :=
  let main_screenshot := (screenshots.lookup "desktop").getD ""
  if main_screenshot = "" then (true, fallback) else (false, .ok main_screenshot)

/-- The data URI embedding the selected screenshot into the user message
    (`main.py` line 288). -/
def image_data_uri (png_b64 : String) : String := "data:image/png;base64," ++ png_b64

/-- Model of the generator `stream_clone_html_enhanced` (`main.py` lines
    229-327): resolve the primary screenshot (the fallback may raise),
    then open the stream — a status other than 200 raises
    `HTTPException(status, resp.text)` before any yield — and run the SSE
    loop.  `resp` is the oracle for the model endpoint's response. -/
def stream_clone_html_enhanced (screenshots : List (String × String))
    (fallback : Except PyExc String) (resp : HttpResponse) :
    List Json × Option PyExc :=
  match (select_png screenshots fallback).2 with
  | .error e => ([], some e)
  | .ok _ =>
    if resp.status_code ≠ 200 then ([], some (.httpException resp.status_code resp.text))
    else sse_loop resp.lines

/-! ## Injection-directive handling (`main.py` lines 186-189, 359-363, 378-379) -/

/-- One caller-supplied `add_script_tag` or `add_style_tag` entry: a
    mapping of attributes. -/
abbrev Tag := List (String × Json)

/-- Python `any(tag.values())`. -/
def any_truthy_value (tag : Tag) : Bool := (tag.map Prod.snd).any pyTruthy

/-- The comprehension `[tag for tag in tags if tag and any(tag.values())]`
    of `main.py` lines 361 and 363. -/
def filter_tags (tags : List Tag) : List Tag :=
  tags.filter (fun tag => !tag.isEmpty && any_truthy_value tag)

/-- The `if add_script_tag: add_script_tag = [...]` preprocessing of the
    `/clone` endpoint (`main.py` lines 360-363): a `None` or empty list is
    left untouched, a non-empty list is filtered. -/
def clone_filter_directives : Option (List Tag) → Option (List Tag)
  | none => none
  | some ts => if ts.isEmpty then some ts else some (filter_tags ts)

/-- Python `x or None` applied to a tag list (`main.py` lines 378-379). -/
def py_or_none : Option (List Tag) → Option (List Tag)
  | none => none
  | some ts => if ts.isEmpty then none else some ts

/-- The `if add_script_tag: payload["addScriptTag"] = add_script_tag` guard
    of `grab_screenshot` (`main.py` lines 186-189): the directives that
    actually enter the screenshot request payload. -/
def grab_screenshot_tag_payload : Option (List Tag) → Option (List Tag)
  | none => none
  | some ts => if ts.isEmpty then none else some ts

/-- Directive list reaching the screenshot request payload through the
    `/clone` endpoint (filter, `or None`, payload guard). -/
def clone_tags_reaching_screenshot (tags : Option (List Tag)) : Option (List Tag) :=
  grab_screenshot_tag_payload (py_or_none (clone_filter_directives tags))

/-- Directive list reaching the screenshot request payload through the
    `/clone-complete` endpoint (`main.py` lines 387-406 pass the
    caller-supplied lists through unchanged). -/
def clone_complete_tags_reaching_screenshot (tags : Option (List Tag)) : Option (List Tag) :=
  grab_screenshot_tag_payload tags

/-! ## Response relay: the two delivery modes (`main.py` lines 351-425) -/

/-- Model of the inner `generator()` of the `/clone` endpoint (`main.py`
    lines 365-382): re-emit every increment of the streaming pipeline and
    convert an exception raised anywhere inside the `try` into one final
    comment-shaped chunk. -/
def clone_stream_response (screenshots : List (String × String))
    (fallback : Except PyExc String) (resp : HttpResponse) : List Json :=
  match stream_clone_html_enhanced screenshots fallback resp with
  | (ys, none) => ys
  | (ys, some e) => ys ++ [Json.str ("<!-- Error: " ++ pyStr e ++ " -->")]

/-- The `analysis` summary of `/clone-complete` (`main.py` lines 416-421):
    counts of fields read from the design context with empty defaults. -/
def analysis_summary (design_context : Json) : Except PyExc Json := do
  let colors ← pyLen (← pyDictGetD design_context "colors" (Json.arr []))
  let fonts ← pyLen (← pyDictGetD design_context "fonts" (Json.arr []))
  let tc ← pyDictGetD design_context "textContent" (Json.obj [])
  let headings ← pyLen (← pyDictGetD tc "headings" (Json.arr []))
  let images ← pyLen (← pyDictGetD design_context "images" (Json.arr []))
  .ok (Json.obj [("colors_found", Json.num colors),
                 ("fonts_found", Json.num fonts),
                 ("headings_count", Json.num headings),
                 ("images_count", Json.num images)])

/-- The screenshot mapping rendered back into the `/clone-complete`
    response document. -/
def screenshots_json (shots : List (String × String)) : Json :=
  Json.obj (shots.map (fun p => (p.1, Json.str p.2)))

/-- Model of the `/clone-complete` endpoint body (`main.py` lines
    387-425): drive the streaming pipeline to exhaustion, join the chunks
    with `"".join`, build the response document — and convert any
    exception raised anywhere in the `try` into
    `HTTPException(500, "Failed to clone website: " + str(e))`. -/
def clone_site_complete (design_context dom_structure : Json)
    (screenshots : List (String × String)) (fallback : Except PyExc String)
    (resp : HttpResponse) : Except (Nat × String) Json :=
  let run : Except PyExc Json := do
    let r := stream_clone_html_enhanced screenshots fallback resp
    match r.2 with
    | some e => .error e
    | none => do
      let html ← pyJoin "" r.1
      let an ← analysis_summary design_context
      .ok (Json.obj [("html", Json.str html),
                     ("design_context", design_context),
                     ("dom_structure", dom_structure),
                     ("screenshots", screenshots_json screenshots),
                     ("analysis", an)])
  match run with
  | .ok v => .ok v
  | .error e => .error (500, "Failed to clone website: " ++ pyStr e)

/-! ## Concrete event-stream lines and small spec-side definitions -/

/-- The event-stream line `data: {"choices":[{"delta":{"content":"A"}}]}`. -/
def sse_line_A : String := "data: \x7b\"choices\":[\x7b\"delta\":\x7b\"content\":\"A\"\x7d\x7d]\x7d"

/-- The event-stream line `data: {"choices":[{"delta":{"content":"B"}}]}`. -/
def sse_line_B : String := "data: \x7b\"choices\":[\x7b\"delta\":\x7b\"content\":\"B\"\x7d\x7d]\x7d"

/-- The terminating sentinel line `data: [DONE]`. -/
def sse_line_done : String := "data: [DONE]"

/-- A data line with a malformed-JSON payload. -/
def sse_line_not_json : String := "data: not-json"

/-- A data line whose payload is the valid record `{"choices":[]}`, which
    lacks the whole `choices[0].delta.content` path. -/
def sse_line_empty_choices : String := "data: \x7b\"choices\":[]\x7d"

/-- Key lookup on a JSON object (`none` on any other value). -/
def jsonLookup (v : Json) (k : String) : Option Json :=
  match v with
  | Json.obj fields => fields.lookup k
  | _ => none

/-- Tests whether a looked-up `selector` value equals the string `style`. -/
def isStyleSel : Option Json → Bool
  | some (Json.str s) => s = "style"
  | _ => false

/-- Spec-side description of the extracted CSS: the `text` of every item of
    the response whose `selector` is `style`, in response order, with a
    missing `text` read as the empty string. -/
def style_texts : List Json → List String
  | [] => []
  | item :: rest =>
    match item with
    | Json.obj fields =>
      if isStyleSel (fields.lookup "selector") then
        (match (fields.lookup "text").getD (Json.str "") with
         | Json.str t => t
         | _ => "") :: style_texts rest
      else style_texts rest
    | _ => style_texts rest

/-- A response item whose `text` value (with the empty-string default) is a
    string, so that the newline-join cannot fault on it. -/
def styleTextOk (fields : List (String × Json)) : Bool :=
  match (fields.lookup "text").getD (Json.str "") with
  | Json.str _ => true
  | _ => false

/-- Well-formedness of one item of the scraping response's `data` list: a
    mapping, whose `text` is a string whenever its `selector` is `style`. -/
def itemWf : Json → Bool
  | Json.obj fields => !isStyleSel (fields.lookup "selector") || styleTextOk fields
  | _ => false
/-! ## Helper lemmas about the SSE loop -/

theorem sse_loop_cons_blank (raw : String) (rest : List String) (h0 : raw = "") :
    sse_loop (raw :: rest) = sse_loop rest := by
  simp [sse_loop, h0]

theorem sse_loop_cons_other (raw : String) (rest : List String)
    (h0 : ¬ raw = "") (h1 : ¬ pyStartsWith raw "data: " = true) :
    sse_loop (raw :: rest) = sse_loop rest := by
  simp [sse_loop, h0, h1]

theorem sse_loop_cons_done (raw : String) (rest : List String)
    (h0 : ¬ raw = "") (h1 : pyStartsWith raw "data: " = true)
    (h2 : pyStrip (pySliceFrom raw 6) = "[DONE]") :
    sse_loop (raw :: rest) = ([Json.str "\n</html>"], none) := by
  simp [sse_loop, h0, h1, h2]

theorem sse_loop_cons_emit (raw : String) (rest : List String) (v : Json)
    (h0 : ¬ raw = "") (h1 : pyStartsWith raw "data: " = true)
    (h2 : ¬ pyStrip (pySliceFrom raw 6) = "[DONE]")
    (h3 : parse_data_line (pyStrip (pySliceFrom raw 6)) = .emit v) :
    sse_loop (raw :: rest) = (v :: (sse_loop rest).1, (sse_loop rest).2) := by
  simp [sse_loop, h0, h1, h2, h3]

theorem sse_loop_cons_skip (raw : String) (rest : List String)
    (h0 : ¬ raw = "") (h1 : pyStartsWith raw "data: " = true)
    (h2 : ¬ pyStrip (pySliceFrom raw 6) = "[DONE]")
    (h3 : parse_data_line (pyStrip (pySliceFrom raw 6)) = .skip) :
    sse_loop (raw :: rest) = sse_loop rest := by
  simp [sse_loop, h0, h1, h2, h3]

theorem sse_loop_cons_raise (raw : String) (rest : List String) (e : PyExc)
    (h0 : ¬ raw = "") (h1 : pyStartsWith raw "data: " = true)
    (h2 : ¬ pyStrip (pySliceFrom raw 6) = "[DONE]")
    (h3 : parse_data_line (pyStrip (pySliceFrom raw 6)) = .raise e) :
    sse_loop (raw :: rest) = ([], some e) := by
  simp [sse_loop, h0, h1, h2, h3]

theorem sse_loop_ok_ends_html (lines : List String) :
    ∀ ys, sse_loop lines = (ys, none) → ∃ front, ys = front ++ [Json.str "\n</html>"] := by
  induction lines with
  | nil =>
    intro ys h
    refine ⟨[], ?_⟩
    have h1 := congrArg Prod.fst h
    simpa [sse_loop] using h1.symm
  | cons raw rest ih =>
    intro ys h
    by_cases h0 : raw = ""
    · exact ih ys (by rwa [sse_loop_cons_blank raw rest h0] at h)
    · by_cases h1 : pyStartsWith raw "data: " = true
      · by_cases h2 : pyStrip (pySliceFrom raw 6) = "[DONE]"
        · rw [sse_loop_cons_done raw rest h0 h1 h2] at h
          refine ⟨[], ?_⟩
          have := congrArg Prod.fst h
          simpa using this.symm
        · cases h3 : parse_data_line (pyStrip (pySliceFrom raw 6)) with
          | emit v =>
            rw [sse_loop_cons_emit raw rest v h0 h1 h2 h3] at h
            have ha : v :: (sse_loop rest).1 = ys := congrArg Prod.fst h
            have hb : (sse_loop rest).2 = none := congrArg Prod.snd h
            obtain ⟨front, hf⟩ := ih (sse_loop rest).1 (by rw [← hb])
            exact ⟨v :: front, by rw [← ha, hf]; simp⟩
          | skip =>
            exact ih ys (by rwa [sse_loop_cons_skip raw rest h0 h1 h2 h3] at h)
          | raise e =>
            rw [sse_loop_cons_raise raw rest e h0 h1 h2 h3] at h
            have := congrArg Prod.snd h
            simp at this
      · exact ih ys (by rwa [sse_loop_cons_other raw rest h0 h1] at h)

/-! ## Helper lemmas about the CSS extraction and the response document -/

theorem isStyleSel_eq_pyEqStr (v : Json) : isStyleSel (some v) = pyEqStr v "style" := by
  cases v <;> rfl

theorem allStrs_map_str (l : List String) : allStrs (l.map Json.str) = some l := by
  induction l with
  | nil => rfl
  | cons s rest ih => simp [allStrs, ih]

theorem pyJoin_map_str (sep : String) (l : List String) :
    pyJoin sep (l.map Json.str) = .ok (joinSep sep l) := by
  simp [pyJoin, allStrs_map_str]

/-- On a well-formed item list, the CSS loop of `extract_dom_structure`
    collects exactly the `style` texts, in order, as strings. -/
theorem css_loop_wf (items : List Json) :
    ∀ acc, items.all itemWf = true →
      css_loop items acc = .ok (acc ++ (style_texts items).map Json.str) := by
  induction items with
  | nil =>
    intro acc h
    simp [css_loop, style_texts]
  | cons item rest ih =>
    intro acc h
    simp only [List.all_cons, Bool.and_eq_true] at h
    obtain ⟨h1, h2⟩ := h
    cases item with
    | null => exact absurd h1 (by simp [itemWf])
    | bool b => exact absurd h1 (by simp [itemWf])
    | num n => exact absurd h1 (by simp [itemWf])
    | str s => exact absurd h1 (by simp [itemWf])
    | arr xs => exact absurd h1 (by simp [itemWf])
    | obj fields =>
      cases hsel : fields.lookup "selector" with
      | none =>
        simp [css_loop, pyDictGet, hsel, bind, Except.bind, style_texts, isStyleSel,
          ih _ h2]
      | some v =>
        by_cases hstyle : pyEqStr v "style" = true
        · have hss : isStyleSel (some v) = true := by rw [isStyleSel_eq_pyEqStr, hstyle]
          have hok : styleTextOk fields = true := by
            have h1' := h1
            simp only [itemWf, hsel, hss] at h1'
            simpa using h1'
          rcases hgd : (fields.lookup "text").getD (Json.str "") with _ | b | n | t | xs | fs
          · exact absurd hok (by simp [styleTextOk, hgd])
          · exact absurd hok (by simp [styleTextOk, hgd])
          · exact absurd hok (by simp [styleTextOk, hgd])
          · have hcl := ih (acc ++ [Json.str t]) h2
            simp [css_loop, pyDictGet, hsel, hstyle, pyDictGetD, hgd, bind, Except.bind,
              style_texts, hss, hcl]
          · exact absurd hok (by simp [styleTextOk, hgd])
          · exact absurd hok (by simp [styleTextOk, hgd])
        · have hss : isStyleSel (some v) = false := by
            rw [isStyleSel_eq_pyEqStr]
            simpa using hstyle
          simp [css_loop, pyDictGet, hsel, hstyle, bind, Except.bind, style_texts, hss,
            ih _ h2]

/-- A successful `dom_try_body` always returns the two-key document
    `html`/`extracted_css` — in particular it never carries an `error`
    key. -/
theorem dom_try_body_ok_shape (content : Json) (r : Json)
    (h : dom_try_body content = .ok r) :
    ∃ css, r = Json.obj [("html", content), ("extracted_css", Json.str css)] := by
  unfold dom_try_body at h
  cases hc : pyContains content "data" with
  | error e =>
    rw [hc] at h
    simp [bind, Except.bind] at h
  | ok hasData =>
    rw [hc] at h
    simp only [bind, Except.bind] at h
    cases hasData with
    | false =>
      simp [pyJoin, allStrs, joinSep] at h
      exact ⟨"", h.symm⟩
    | true =>
      simp only [if_true] at h
      cases hg : pyGetItemStr content "data" with
      | error e =>
        rw [hg] at h
        simp at h
      | ok data =>
        rw [hg] at h
        dsimp only [] at h
        cases hi : pyIterList data with
        | error e =>
          rw [hi] at h
          simp at h
        | ok items =>
          rw [hi] at h
          dsimp only [] at h
          cases hcl : css_loop items [] with
          | error e =>
            rw [hcl] at h
            simp at h
          | ok css =>
            rw [hcl] at h
            dsimp only [] at h
            cases hj : pyJoin "\n" css with
            | error e =>
              rw [hj] at h
              simp at h
            | ok j =>
              rw [hj] at h
              simp only [Except.ok.injEq] at h
              exact ⟨j, h.symm⟩

/-! ## Claim theorems -/

/-- Claim C1, counterexample: feeding the three example lines to the
    streaming parser on a 200 response does NOT yield the increment
    sequence `["A", "B", "</html>"]` claimed by the spec — the final
    increment the code yields is `"\n</html>"`, a newline followed by the
    closing tag, not the bare closing tag. -/
theorem sse_stream_example_counterexample :
    stream_clone_html_enhanced [("desktop", "IMG")] (.error (.requestError "nofb"))
      ⟨200, "", [sse_line_A, sse_line_B, sse_line_done]⟩ ≠
    ([Json.str "A", Json.str "B", Json.str "</html>"], none) := by
  have h : stream_clone_html_enhanced [("desktop", "IMG")] (.error (.requestError "nofb"))
      ⟨200, "", [sse_line_A, sse_line_B, sse_line_done]⟩ =
      ([Json.str "A", Json.str "B", Json.str "\n</html>"], none) := rfl
  rw [h]
  simp

/-- Claim C1, amended: on a successful (200) response, feeding the lines
    `data: {"choices":[{"delta":{"content":"A"}}]}`,
    `data: {"choices":[{"delta":{"content":"B"}}]}`, `data: [DONE]` yields
    exactly the increments `["A", "B", "\n</html>"]` and terminates
    without reading any line after the `[DONE]` sentinel (the trailing
    lines `rest` are arbitrary and do not influence the result); and in
    general, whenever the SSE loop terminates without raising — by
    `[DONE]` or by exhausting the transport lines — its yield sequence
    ends with exactly one final literal `"\n</html>"` increment. -/
theorem sse_stream_example_and_final_tag :
    (∀ (body : String) (rest : List String) (shots : List (String × String))
       (fb : Except PyExc String) (png : String),
       (select_png shots fb).2 = .ok png →
       stream_clone_html_enhanced shots fb
         ⟨200, body, [sse_line_A, sse_line_B, sse_line_done] ++ rest⟩ =
         ([Json.str "A", Json.str "B", Json.str "\n</html>"], none))
  ∧ (∀ lines ys, sse_loop lines = (ys, none) →
       ∃ front, ys = front ++ [Json.str "\n</html>"]) := by
  constructor
  · intro body rest shots fb png hok
    unfold stream_clone_html_enhanced
    rw [hok]
    simp only [List.cons_append, List.nil_append]
    have e3 : sse_loop (sse_line_done :: rest) = ([Json.str "\n</html>"], none) :=
      sse_loop_cons_done _ _ (by decide) rfl (by decide)
    have e2 : sse_loop (sse_line_B :: sse_line_done :: rest) =
        (Json.str "B" :: (sse_loop (sse_line_done :: rest)).1,
         (sse_loop (sse_line_done :: rest)).2) :=
      sse_loop_cons_emit _ _ _ (by decide) rfl (by decide) rfl
    have e1 : sse_loop (sse_line_A :: sse_line_B :: sse_line_done :: rest) =
        (Json.str "A" :: (sse_loop (sse_line_B :: sse_line_done :: rest)).1,
         (sse_loop (sse_line_B :: sse_line_done :: rest)).2) :=
      sse_loop_cons_emit _ _ _ (by decide) rfl (by decide) rfl
    simp [e1, e2, e3]
  · exact fun lines => sse_loop_ok_ends_html lines

/-- Claim C1, witness: the amended theorem applied at a concrete desktop
    screenshot, no-fallback oracle, and exactly the three example lines. -/
theorem sse_stream_example_and_final_tag_witness :
    (select_png [("desktop", "IMG")] (.error (.requestError "nofb"))).2 = .ok "IMG" ∧
    stream_clone_html_enhanced [("desktop", "IMG")] (.error (.requestError "nofb"))
      ⟨200, "", [sse_line_A, sse_line_B, sse_line_done]⟩ =
      ([Json.str "A", Json.str "B", Json.str "\n</html>"], none) := by
  refine ⟨rfl, ?_⟩
  have h := sse_stream_example_and_final_tag.1 "" [] [("desktop", "IMG")]
    (.error (.requestError "nofb")) "IMG" rfl
  simpa using h

/-- Claim C2: whenever the screenshot-selection step succeeded and the
    model endpoint's initial response status is not a success (outside
    2xx, hence in particular not 200), the streaming generator raises
    `HTTPException(status, resp.text)` — carrying the status code and the
    response body — and yields zero increments, so the final `</html>`
    increment is not yielded either. -/
theorem stream_non_success_no_increments :
    ∀ (shots : List (String × String)) (fb : Except PyExc String)
      (resp : HttpResponse) (png : String),
      (select_png shots fb).2 = .ok png →
      (resp.status_code < 200 ∨ 300 ≤ resp.status_code) →
      stream_clone_html_enhanced shots fb resp =
        ([], some (.httpException resp.status_code resp.text)) := by
  intro shots fb resp png hok hrange
  have hne : resp.status_code ≠ 200 := by omega
  unfold stream_clone_html_enhanced
  rw [hok]
  simp [hne]

/-- Claim C2, witness: a 404 response with a body yields nothing and
    fails with `HTTPException(404, body)`. -/
theorem stream_non_success_no_increments_witness :
    stream_clone_html_enhanced [("desktop", "IMG")] (.error (.requestError "nofb"))
      ⟨404, "missing model", [sse_line_A]⟩ =
      ([], some (.httpException 404 "missing model")) :=
  stream_non_success_no_increments [("desktop", "IMG")] (.error (.requestError "nofb"))
    ⟨404, "missing model", [sse_line_A]⟩ "IMG" rfl (by decide)

/-- Claim C3, counterexample: the payload `{"choices":[]}` is a record
    without the `choices[0].delta.content` path, yet the parser does not
    skip it — `[][0]` raises `IndexError`, which the
    `except (KeyError, json.JSONDecodeError)` clause does not catch, so
    the sequence terminates early (no `"B"`, no final tag) with an
    exception instead of continuing. -/
theorem sse_bad_line_counterexample :
    stream_clone_html_enhanced [("desktop", "IMG")] (.error (.requestError "nofb"))
      ⟨200, "", [sse_line_A, sse_line_empty_choices, sse_line_B, sse_line_done]⟩ =
      ([Json.str "A"], some (PyExc.indexError "list index out of range")) ∧
    (stream_clone_html_enhanced [("desktop", "IMG")] (.error (.requestError "nofb"))
      ⟨200, "", [sse_line_A, sse_line_empty_choices, sse_line_B, sse_line_done]⟩).2 ≠
      none := by
  refine ⟨rfl, ?_⟩
  intro h
  rw [show (stream_clone_html_enhanced [("desktop", "IMG")] (.error (.requestError "nofb"))
      ⟨200, "", [sse_line_A, sse_line_empty_choices, sse_line_B, sse_line_done]⟩).2 =
      some (PyExc.indexError "list index out of range") from rfl] at h
  cases h

/-- Claim C3, amended: a `data:` line whose payload is malformed JSON
    (concretely, `data: not-json` interleaved between two valid lines is
    skipped and the surrounding increments still arrive in order), or
    whose extraction fails with a caught exception (`KeyError` for a
    missing dictionary key, `JSONDecodeError`), or whose record simply
    has no `content` entry, is silently skipped and the loop continues on
    the remaining lines; a valid-JSON payload whose faults fall outside
    the caught set — e.g. an empty `choices` list — raises instead (see
    the counterexample). -/
theorem sse_bad_line_skipped :
    (stream_clone_html_enhanced [("desktop", "IMG")] (.error (.requestError "nofb"))
       ⟨200, "", [sse_line_A, sse_line_not_json, sse_line_B, sse_line_done]⟩ =
       ([Json.str "A", Json.str "B", Json.str "\n</html>"], none))
  ∧ (∀ (raw : String) (rest : List String),
       raw ≠ "" → pyStartsWith raw "data: " = true →
       pyStrip (pySliceFrom raw 6) ≠ "[DONE]" →
       ((∃ m, loads (pyStrip (pySliceFrom raw 6)) = .error (.jsonDecodeError m))
        ∨ (∃ e, sse_extract_content (pyStrip (pySliceFrom raw 6)) = .error e ∧
             sseCaught e = true)
        ∨ sse_extract_content (pyStrip (pySliceFrom raw 6)) = .ok none) →
       sse_loop (raw :: rest) = sse_loop rest) := by
  constructor
  · rfl
  · intro raw rest h0 h1 h2 hcase
    have hskip : parse_data_line (pyStrip (pySliceFrom raw 6)) = .skip := by
      rcases hcase with ⟨m, hm⟩ | ⟨e, he, hc⟩ | hnone
      · have hx : sse_extract_content (pyStrip (pySliceFrom raw 6)) =
            .error (.jsonDecodeError m) := by
          unfold sse_extract_content
          rw [hm]
          rfl
        simp [parse_data_line, hx, sseCaught]
      · simp [parse_data_line, he, hc]
      · simp [parse_data_line, hnone]
    exact sse_loop_cons_skip raw rest h0 h1 h2 hskip

/-- Claim C3, witness: the amended theorem applied to the concrete
    malformed line `data: not-json`. -/
theorem sse_bad_line_skipped_witness :
    sse_loop [sse_line_not_json, sse_line_done] = sse_loop [sse_line_done] :=
  sse_bad_line_skipped.2 sse_line_not_json [sse_line_done] (by decide) rfl (by decide)
    (Or.inl ⟨"Expecting value", rfl⟩)

/-- Claim C4: for every screenshot oracle, `capture_responsive_views`
    returns a mapping with exactly the three keys `mobile`, `tablet` and
    `desktop` in that order, and the value under each device's key is
    determined solely by that device's own request — the base64 encoding
    of the received content on success, the string `"Error: " ++ str(e)`
    on failure — so a failure on one viewport leaves the other two
    populated with their own base64 data. -/
theorem capture_views_three_keys :
    ∀ fetch : Nat → Nat → Except PyExc (List UInt8),
      (capture_responsive_views fetch).map Prod.fst = ["mobile", "tablet", "desktop"]
    ∧ (∀ device w h, (device, w, h) ∈ viewports →
        (capture_responsive_views fetch).lookup device =
          some (match fetch w h with
                | .ok content => b64encode content
                | .error e => "Error: " ++ pyStr e)) := by
  intro fetch
  constructor
  · simp [capture_responsive_views, viewports]
  · intro device w h hm
    fin_cases hm <;> simp [capture_responsive_views, viewports, List.lookup]

/-- Claim C4, witness: with an oracle that fails exactly on the desktop
    viewport, the three keys are intact, the desktop key carries the
    error string, and the mobile key carries base64 image data. -/
theorem capture_views_three_keys_witness :
    (capture_responsive_views
        (fun w _ => if w = 1440 then .error (.requestError "boom") else .ok [1, 2, 3])).map
        Prod.fst = ["mobile", "tablet", "desktop"]
    ∧ (capture_responsive_views
        (fun w _ => if w = 1440 then .error (.requestError "boom") else .ok [1, 2, 3])).lookup
        "desktop" = some ("Error: boom")
    ∧ (capture_responsive_views
        (fun w _ => if w = 1440 then .error (.requestError "boom") else .ok [1, 2, 3])).lookup
        "mobile" = some (b64encode [1, 2, 3]) := by
  refine ⟨(capture_views_three_keys _).1, ?_, ?_⟩
  · have h := (capture_views_three_keys
      (fun w _ => if w = 1440 then .error (.requestError "boom") else .ok [1, 2, 3])).2
      "desktop" 1440 900 (by decide)
    simpa using h
  · have h := (capture_views_three_keys
      (fun w _ => if w = 1440 then .error (.requestError "boom") else .ok [1, 2, 3])).2
      "mobile" 375 667 (by decide)
    simpa using h

/-- Claim C5: on a successful scraping-service response whose `data` list
    is well-formed, the `extracted_css` field returned by
    `extract_dom_structure` equals the newline-join of the `text` of
    every returned `style` item, in response order; when there are zero
    style items the field is the empty string. -/
theorem extracted_css_newline_join :
    ∀ (fields : List (String × Json)) (items : List Json),
      fields.lookup "data" = some (Json.arr items) →
      items.all itemWf = true →
      extract_dom_structure (.ok (Json.obj fields)) =
        Json.obj [("html", Json.obj fields),
                  ("extracted_css", Json.str (joinSep "\n" (style_texts items)))]
    ∧ (style_texts items = [] →
       extract_dom_structure (.ok (Json.obj fields)) =
         Json.obj [("html", Json.obj fields), ("extracted_css", Json.str "")]) := by
  intro fields items hdata hwf
  have hbody : dom_try_body (Json.obj fields) =
      .ok (Json.obj [("html", Json.obj fields),
                     ("extracted_css", Json.str (joinSep "\n" (style_texts items)))]) := by
    unfold dom_try_body
    simp [pyContains, hdata, pyGetItemStr, pyIterList, bind, Except.bind,
      css_loop_wf items [] hwf, pyJoin_map_str]
  have hmain : extract_dom_structure (.ok (Json.obj fields)) =
      Json.obj [("html", Json.obj fields),
                ("extracted_css", Json.str (joinSep "\n" (style_texts items)))] := by
    unfold extract_dom_structure
    simp [bind, Except.bind, hbody]
  refine ⟨hmain, fun hempty => ?_⟩
  rw [hmain, hempty]
  rfl

/-- Claim C5, witness: two style items and one body item produce the
    newline-join of the two style texts. -/
theorem extracted_css_newline_join_witness :
    extract_dom_structure (.ok (Json.obj [("data", Json.arr
        [Json.obj [("selector", Json.str "style"), ("text", Json.str "aa")],
         Json.obj [("selector", Json.str "body")],
         Json.obj [("selector", Json.str "style"), ("text", Json.str "bb")]])])) =
      Json.obj [("html", Json.obj [("data", Json.arr
        [Json.obj [("selector", Json.str "style"), ("text", Json.str "aa")],
         Json.obj [("selector", Json.str "body")],
         Json.obj [("selector", Json.str "style"), ("text", Json.str "bb")]])]),
        ("extracted_css", Json.str "aa\nbb")] :=
  (extracted_css_newline_join
    [("data", Json.arr
        [Json.obj [("selector", Json.str "style"), ("text", Json.str "aa")],
         Json.obj [("selector", Json.str "body")],
         Json.obj [("selector", Json.str "style"), ("text", Json.str "bb")]])]
    [Json.obj [("selector", Json.str "style"), ("text", Json.str "aa")],
     Json.obj [("selector", Json.str "body")],
     Json.obj [("selector", Json.str "style"), ("text", Json.str "bb")]] rfl rfl).1

/-- Claim C6, counterexample: an `add_script_tag` directive all of whose
    values are falsy passes through the `/clone-complete` endpoint
    unchanged and reaches the screenshot request payload — that endpoint
    performs no filtering, contradicting the claim that both endpoints
    drop such directives. -/
theorem clone_directive_filtering_counterexample :
    clone_complete_tags_reaching_screenshot (some [[("src", Json.str "")]]) =
      some [[("src", Json.str "")]]
    ∧ any_truthy_value [("src", Json.str "")] = false := ⟨rfl, rfl⟩

/-- Claim C6, amended: only the `/clone` endpoint filters caller-supplied
    injection directives — every directive that reaches the screenshot
    payload through `/clone` is non-empty and has at least one truthy
    value — while `/clone-complete` forwards any non-empty directive list
    unchanged, so empty or all-falsy directives can reach
    `grab_screenshot` there. -/
theorem clone_directive_filtering :
    (∀ (tags : Option (List Tag)) (ts : List Tag),
       clone_tags_reaching_screenshot tags = some ts →
       ∀ tag ∈ ts, tag ≠ [] ∧ any_truthy_value tag = true)
  ∧ (∀ ts : List Tag, ts ≠ [] →
       clone_complete_tags_reaching_screenshot (some ts) = some ts) := by
  constructor
  · intro tags ts hts tag htag
    cases tags with
    | none =>
      simp [clone_tags_reaching_screenshot, clone_filter_directives, py_or_none,
        grab_screenshot_tag_payload] at hts
    | some ts0 =>
      by_cases he : ts0.isEmpty
      · simp [clone_tags_reaching_screenshot, clone_filter_directives, py_or_none,
          grab_screenshot_tag_payload, he] at hts
      · by_cases hf : (filter_tags ts0).isEmpty
        · simp [clone_tags_reaching_screenshot, clone_filter_directives, py_or_none,
            grab_screenshot_tag_payload, he, hf] at hts
        · have hts' : ts = filter_tags ts0 := by
            simp [clone_tags_reaching_screenshot, clone_filter_directives, py_or_none,
              grab_screenshot_tag_payload, he, hf] at hts
            exact hts.symm
          rw [hts'] at htag
          simp only [filter_tags] at htag
          have hm := List.mem_filter.mp htag
          obtain ⟨-, hp⟩ := hm
          have hp' := (Bool.and_eq_true _ _).mp hp
          refine ⟨by simpa using hp'.1, hp'.2⟩
  · intro ts hne
    have hempty : ts.isEmpty = false := by simpa using hne
    simp [clone_complete_tags_reaching_screenshot, grab_screenshot_tag_payload, hempty]

/-- Claim C6, witness: through `/clone`, the directive list
    `[{"a": "x"}, {}]` is filtered down to the single truthy directive,
    and through `/clone-complete` the same truthy directive passes
    unchanged. -/
theorem clone_directive_filtering_witness :
    (([("a", Json.str "x")] : Tag) ≠ [] ∧ any_truthy_value [("a", Json.str "x")] = true)
    ∧ clone_complete_tags_reaching_screenshot (some [[("a", Json.str "x")]]) =
        some [[("a", Json.str "x")]] := by
  constructor
  · exact clone_directive_filtering.1 (some [[("a", Json.str "x")], []])
      [[("a", Json.str "x")]] rfl _ (by simp)
  · exact clone_directive_filtering.2 [[("a", Json.str "x")]] (by simp)

/-- Claim C7: the `/clone` generator re-emits the pipeline's increments
    unchanged when no exception occurs, and converts any exception
    raised during extraction or streaming into exactly one final
    comment-shaped diagnostic chunk appended to whatever increments were
    already emitted, so when the pipeline raises the response stream
    still terminates and contains at least one chunk. -/
theorem clone_stream_error_chunk :
    ∀ (shots : List (String × String)) (fb : Except PyExc String) (resp : HttpResponse),
      (∀ ys, stream_clone_html_enhanced shots fb resp = (ys, none) →
        clone_stream_response shots fb resp = ys)
    ∧ (∀ ys e, stream_clone_html_enhanced shots fb resp = (ys, some e) →
        clone_stream_response shots fb resp =
          ys ++ [Json.str ("<!-- Error: " ++ pyStr e ++ " -->")]
        ∧ 1 ≤ (clone_stream_response shots fb resp).length) := by
  intro shots fb resp
  constructor
  · intro ys h
    unfold clone_stream_response
    rw [h]
  · intro ys e h
    have hc : clone_stream_response shots fb resp =
        ys ++ [Json.str ("<!-- Error: " ++ pyStr e ++ " -->")] := by
      unfold clone_stream_response
      rw [h]
    refine ⟨hc, ?_⟩
    rw [hc]
    simp

/-- Claim C7, witness: a 500 response from the model endpoint produces a
    stream holding exactly one diagnostic comment chunk. -/
theorem clone_stream_error_chunk_witness :
    clone_stream_response [("desktop", "IMG")] (.error (.requestError "nofb"))
      ⟨500, "oops", []⟩ = [Json.str "<!-- Error: 500: oops -->"] := by
  have h := (clone_stream_error_chunk [("desktop", "IMG")] (.error (.requestError "nofb"))
    ⟨500, "oops", []⟩).2 [] (.httpException 500 "oops") rfl
  simpa using h.1

/-- Claim C8: in complete mode, when the pipeline runs to exhaustion
    without raising, the returned document's `html` field is the
    concatenation, in production order, of every increment yielded,
    returned alongside the three extraction artifacts and the analysis
    summary; when the pipeline raises anywhere, the endpoint returns a
    single HTTP 500 failure carrying the message, with no partial
    document. -/
theorem clone_complete_html_or_500 :
    ∀ (dc dom : Json) (shots : List (String × String)) (fb : Except PyExc String)
      (resp : HttpResponse),
      (∀ (chunks : List Json) (ss : List String) (an : Json),
         stream_clone_html_enhanced shots fb resp = (chunks, none) →
         allStrs chunks = some ss →
         analysis_summary dc = .ok an →
         clone_site_complete dc dom shots fb resp =
           .ok (Json.obj [("html", Json.str (joinSep "" ss)),
                          ("design_context", dc),
                          ("dom_structure", dom),
                          ("screenshots", screenshots_json shots),
                          ("analysis", an)]))
    ∧ (∀ (chunks : List Json) (e : PyExc),
         stream_clone_html_enhanced shots fb resp = (chunks, some e) →
         clone_site_complete dc dom shots fb resp =
           .error (500, "Failed to clone website: " ++ pyStr e)) := by
  intro dc dom shots fb resp
  constructor
  · intro chunks ss an hstream hss han
    unfold clone_site_complete
    rw [hstream]
    simp [bind, Except.bind, pyJoin, hss, han]
  · intro chunks e hstream
    unfold clone_site_complete
    rw [hstream]

/-- Claim C8, witness: a concrete run with one content increment returns
    the document whose `html` is the concatenation `"A" ++ "\n</html>"`
    together with the artifacts and the (all-zero) analysis counts. -/
theorem clone_complete_html_or_500_witness :
    clone_site_complete (Json.obj []) (Json.obj []) [("desktop", "IMG")]
      (.error (.requestError "nofb")) ⟨200, "", [sse_line_A, sse_line_done]⟩ =
      .ok (Json.obj [("html", Json.str "A\n</html>"),
                     ("design_context", Json.obj []),
                     ("dom_structure", Json.obj []),
                     ("screenshots", screenshots_json [("desktop", "IMG")]),
                     ("analysis", Json.obj [("colors_found", Json.num 0),
                                            ("fonts_found", Json.num 0),
                                            ("headings_count", Json.num 0),
                                            ("images_count", Json.num 0)])]) := by
  have h := (clone_complete_html_or_500 (Json.obj []) (Json.obj []) [("desktop", "IMG")]
    (.error (.requestError "nofb")) ⟨200, "", [sse_line_A, sse_line_done]⟩).1
    [Json.str "A", Json.str "\n</html>"] ["A", "\n</html>"]
    (Json.obj [("colors_found", Json.num 0), ("fonts_found", Json.num 0),
               ("headings_count", Json.num 0), ("images_count", Json.num 0)])
    rfl rfl rfl
  simpa using h

/-- Claim C9: the two extraction clients are total functions of their call
    outcome — they never raise.  On any transport or HTTP failure each
    returns an error-shaped mapping whose `error` key holds a string
    (`extract_dom_structure` also converts faults raised while examining
    a successful payload), and on success each returns the payload
    without an `error` field: `extract_design_context` returns the
    injected script's four-key result unchanged, and
    `extract_dom_structure` returns the two-key `html`/`extracted_css`
    document. -/
theorem extract_clients_error_shaped :
    (∀ e : PyExc, jsonLookup (extract_design_context (.error e)) "error" =
       some (Json.str ("Failed to extract design context: " ++ pyStr e)))
  ∧ (∀ (title : String) (em : List Json) (vw vh : Int) (de ke : String),
       jsonLookup (extract_design_context
         (.ok (extract_script_result title em vw vh de ke))) "error" = none)
  ∧ (∀ e : PyExc, jsonLookup (extract_dom_structure (.error e)) "error" =
       some (Json.str ("Failed to extract DOM: " ++ pyStr e)))
  ∧ (∀ (content : Json) (e : PyExc), dom_try_body content = .error e →
       jsonLookup (extract_dom_structure (.ok content)) "error" =
         some (Json.str ("Failed to extract DOM: " ++ pyStr e)))
  ∧ (∀ (content r : Json), dom_try_body content = .ok r →
       extract_dom_structure (.ok content) = r ∧ jsonLookup r "error" = none) := by
  refine ⟨fun e => rfl, fun title em vw vh de ke => rfl, fun e => rfl, ?_, ?_⟩
  · intro content e h
    unfold extract_dom_structure
    simp [bind, Except.bind, h, jsonLookup]
  · intro content r h
    have hr : extract_dom_structure (.ok content) = r := by
      unfold extract_dom_structure
      simp [bind, Except.bind, h]
    obtain ⟨css, hcss⟩ := dom_try_body_ok_shape content r h
    exact ⟨hr, by rw [hcss]; rfl⟩

/-- Claim C9, witness: a transport timeout produces the error-shaped
    design context; a successful script payload carries no `error` key; a
    non-iterable DOM payload is caught into the error shape rather than
    raised. -/
theorem extract_clients_error_shaped_witness :
    jsonLookup (extract_design_context (.error (.requestError "timeout"))) "error" =
      some (Json.str "Failed to extract design context: timeout")
    ∧ jsonLookup (extract_design_context
        (.ok (extract_script_result "T" [] 1440 900 "d" "k"))) "error" = none
    ∧ jsonLookup (extract_dom_structure (.ok (Json.num 5))) "error" =
        some (Json.str "Failed to extract DOM: argument is not iterable") := by
  refine ⟨extract_clients_error_shaped.1 _,
    extract_clients_error_shaped.2.1 "T" [] 1440 900 "d" "k", ?_⟩
  exact extract_clients_error_shaped.2.2.2.1 (Json.num 5)
    (.typeError "argument is not iterable") rfl

/-- Claim C10: when the desktop viewport capture fails,
    `capture_responsive_views` stores the non-empty string
    `"Error: " ++ str(e)` under the desktop key; since the streaming
    generator invokes the fallback screenshot only when the desktop value
    is missing or empty, that truthy error string suppresses the fallback
    and is itself used as the base64 payload, so the data URI embedded in
    the prompt is `"data:image/png;base64,Error: " ++ str(e)`. -/
theorem desktop_error_string_used_as_image :
    ∀ (fetch : Nat → Nat → Except PyExc (List UInt8)) (e : PyExc) (fb : Except PyExc String),
      fetch 1440 900 = .error e →
      (capture_responsive_views fetch).lookup "desktop" = some ("Error: " ++ pyStr e)
    ∧ ("Error: " ++ pyStr e) ≠ ""
    ∧ select_png (capture_responsive_views fetch) fb = (false, .ok ("Error: " ++ pyStr e))
    ∧ image_data_uri ("Error: " ++ pyStr e) = "data:image/png;base64,Error: " ++ pyStr e := by
  intro fetch e fb hf
  have hlk : (capture_responsive_views fetch).lookup "desktop" =
      some ("Error: " ++ pyStr e) := by
    simp [capture_responsive_views, viewports, List.lookup, hf]
  have hne : ("Error: " ++ pyStr e) ≠ "" := by
    intro h
    have hd := congrArg String.data h
    simp [String.data_append] at hd
  refine ⟨hlk, hne, ?_, ?_⟩
  · unfold select_png
    rw [hlk]
    simp [hne]
  · unfold image_data_uri
    rw [← String.append_assoc]
    rfl

/-- Claim C10, witness: a concrete desktop failure leaves the fallback
    uninvoked and selects the error string as the image payload. -/
theorem desktop_error_string_used_as_image_witness :
    select_png (capture_responsive_views
        (fun w _ => if w = 1440 then .error (.requestError "boom") else .ok [1, 2, 3]))
      (.error (.requestError "nofb")) = (false, .ok "Error: boom") := by
  have h := desktop_error_string_used_as_image
    (fun w _ => if w = 1440 then .error (.requestError "boom") else .ok [1, 2, 3])
    (.requestError "boom") (.error (.requestError "nofb")) rfl
  simpa using h.2.2.1
